import Mathlib

/-!
# Verification development for the bw2-contrib drivers

Shallow embedding of `driver/enphase/main.go` and `driver/vlight/main.go`.

* A Go `string` is a byte sequence (`GoString`); string literals of the source that are only
  used as labels (signal names, service names, log lines) stay Lean strings.
* A Go `error` value is identified with its message.
* Calls into the bus library, the parameter loader, the clock and the device adapters are
  parameters of the model; every call the drivers make is recorded in an event trace.
* A process either keeps running, or halts by `os.Exit`, by an uncaught `panic`, or inside one of
  the library calls named `...OrExit` / `Must...`.
-/

set_option maxRecDepth 100000

/-- Go `string`: an immutable sequence of bytes. -/
abbrev GoString := List (Fin 256)

/-- Go `error`, identified with the text of its message. -/
abbrev GoError := String

/-- Encoding of one code point in UTF-8, as the Go compiler stores the characters of a literal. -/
def utf8EncodeChar (c : Char) : List (Fin 256) :=
  let v := c.toNat
  if v < 0x80 then [Fin.ofNat v]
  else if v < 0x800 then [Fin.ofNat (0xc0 + v / 64), Fin.ofNat (0x80 + v % 64)]
  else if v < 0x10000 then
    [Fin.ofNat (0xe0 + v / 4096), Fin.ofNat (0x80 + v / 64 % 64), Fin.ofNat (0x80 + v % 64)]
  else
    [Fin.ofNat (0xf0 + v / 262144), Fin.ofNat (0x80 + v / 4096 % 64),
     Fin.ofNat (0x80 + v / 64 % 64), Fin.ofNat (0x80 + v % 64)]

/-- The bytes of a Go string literal. -/
def golit (s : String) : GoString := s.data.flatMap utf8EncodeChar

/-- Go `strings.HasSuffix(s, suffix)`:
`len(s) >= len(suffix) && s[len(s)-len(suffix):] == suffix`. -/
def HasSuffix (s suffix : GoString) : Bool :=
  decide (suffix.length ≤ s.length) && (s.drop (s.length - suffix.length) == suffix)

/-! ## MD5 (RFC 1321), on bytes and 32-bit words held in `Nat`

The digest the name-based identifiers of the identifier library are computed from. -/

namespace MD5

/-- The sine-derived additive constants of the 64 steps. -/
def K : List Nat :=
  [0xd76aa478, 0xe8c7b756, 0x242070db, 0xc1bdceee, 0xf57c0faf, 0x4787c62a, 0xa8304613, 0xfd469501,
   0x698098d8, 0x8b44f7af, 0xffff5bb1, 0x895cd7be, 0x6b901122, 0xfd987193, 0xa679438e, 0x49b40821,
   0xf61e2562, 0xc040b340, 0x265e5a51, 0xe9b6c7aa, 0xd62f105d, 0x02441453, 0xd8a1e681, 0xe7d3fbc8,
   0x21e1cde6, 0xc33707d6, 0xf4d50d87, 0x455a14ed, 0xa9e3e905, 0xfcefa3f8, 0x676f02d9, 0x8d2a4c8a,
   0xfffa3942, 0x8771f681, 0x6d9d6122, 0xfde5380c, 0xa4beea44, 0x4bdecfa9, 0xf6bb4b60, 0xbebfbc70,
   0x289b7ec6, 0xeaa127fa, 0xd4ef3085, 0x04881d05, 0xd9d4d039, 0xe6db99e5, 0x1fa27cf8, 0xc4ac5665,
   0xf4292244, 0x432aff97, 0xab9423a7, 0xfc93a039, 0x655b59c3, 0x8f0ccc92, 0xffeff47d, 0x85845dd1,
   0x6fa87e4f, 0xfe2ce6e0, 0xa3014314, 0x4e0811a1, 0xf7537e82, 0xbd3af235, 0x2ad7d2bb, 0xeb86d391]

/-- The per-step left-rotation amounts. -/
def S : List Nat :=
  [7, 12, 17, 22, 7, 12, 17, 22, 7, 12, 17, 22, 7, 12, 17, 22,
   5, 9, 14, 20, 5, 9, 14, 20, 5, 9, 14, 20, 5, 9, 14, 20,
   4, 11, 16, 23, 4, 11, 16, 23, 4, 11, 16, 23, 4, 11, 16, 23,
   6, 10, 15, 21, 6, 10, 15, 21, 6, 10, 15, 21, 6, 10, 15, 21]

/-- Truncation to 32 bits. -/
def w32 (x : Nat) : Nat := x % 4294967296

/-- Bitwise complement of a 32-bit word. -/
def not32 (x : Nat) : Nat := x ^^^ 0xffffffff

/-- Left rotation of a 32-bit word by `c` bits. -/
def rotl32 (x c : Nat) : Nat := w32 ((x <<< c) ||| (x >>> (32 - c)))

/-- The four chaining words. -/
structure St where
  a : Nat
  b : Nat
  c : Nat
  d : Nat
deriving DecidableEq, Repr

/-- The initial chaining words. -/
def init : St := ⟨0x67452301, 0xefcdab89, 0x98badcfe, 0x10325476⟩

/-- Step `i` of the 64 steps on one block with message words `M`. -/
def step (M : List Nat) (st : St) (i : Nat) : St :=
  let f := if i < 16 then (st.b &&& st.c) ||| (not32 st.b &&& st.d)
    else if i < 32 then (st.d &&& st.b) ||| (not32 st.d &&& st.c)
    else if i < 48 then st.b ^^^ st.c ^^^ st.d
    else st.c ^^^ (st.b ||| not32 st.d)
  let g := if i < 16 then i
    else if i < 32 then (5 * i + 1) % 16
    else if i < 48 then (3 * i + 5) % 16
    else (7 * i) % 16
  let F := w32 (f + st.a + K.getD i 0 + M.getD g 0)
  ⟨st.d, w32 (st.b + rotl32 F (S.getD i 0)), st.b, st.c⟩

/-- Little-endian 32-bit word of four bytes. -/
def leWord (bs : List Nat) : Nat :=
  bs.getD 0 0 + 256 * bs.getD 1 0 + 65536 * bs.getD 2 0 + 16777216 * bs.getD 3 0

/-- The sixteen message words of a 64-byte block. -/
def words (block : List Nat) : List Nat :=
  (List.range 16).map fun j => leWord ((block.drop (4 * j)).take 4)

/-- Compression of one block into the chaining words. -/
def block (st : St) (blk : List Nat) : St :=
  let r := (List.range 64).foldl (step (words blk)) st
  ⟨w32 (st.a + r.a), w32 (st.b + r.b), w32 (st.c + r.c), w32 (st.d + r.d)⟩

/-- The `n` low bytes of `x`, least significant first. -/
def leBytes (n : Nat) (x : Nat) : List Nat :=
  (List.range n).map fun i => x / 256 ^ i % 256

/-- Padding: a one bit, zeros up to 56 modulo 64 bytes, then the bit length on 64 bits. -/
def pad (msg : List Nat) : List Nat :=
  let l := msg.length
  msg ++ [0x80] ++ List.replicate ((119 - l % 64) % 64) 0 ++ leBytes 8 (8 * l % 2 ^ 64)

/-- The sixteen-byte digest of a byte sequence, Go `md5.Sum`. -/
def sum (msg : List Nat) : List Nat :=
  let p := pad msg
  let st := (List.range (p.length / 64)).foldl
    (fun st i => block st ((p.drop (64 * i)).take 64)) init
  leBytes 4 st.a ++ leBytes 4 st.b ++ leBytes 4 st.c ++ leBytes 4 st.d

end MD5

/-! ## Identifiers (`github.com/satori/go.uuid`) -/

/-- Go `type UUID [16]byte`. -/
abbrev UUID := Fin 16 → Fin 256

namespace UUID

/-- The zero identifier `uuid.Nil`. -/
def Nil : UUID := fun _ => 0

/-- Value of one hexadecimal digit, either case. -/
def hexVal (c : Char) : Option Nat :=
  if '0' ≤ c ∧ c ≤ '9' then some (c.toNat - 48)
  else if 'a' ≤ c ∧ c ≤ 'f' then some (c.toNat - 87)
  else if 'A' ≤ c ∧ c ≤ 'F' then some (c.toNat - 55)
  else none

/-- Go `hex.Decode` on an even run of digits. -/
def hexDecode : List Char → Option (List (Fin 256))
  | [] => some []
  | [_] => none
  | hi :: lo :: rest =>
    match hexVal hi, hexVal lo, hexDecode rest with
    | some h, some l, some bs => some (Fin.ofNat (16 * h + l) :: bs)
    | _, _, _ => none

/-- Modelled from the spec: `uuid.FromStringOrNil` of the identifier library is not under src/.
The canonical text form `xxxxxxxx-xxxx-xxxx-xxxx-xxxxxxxxxxxx` (the form of `rootUUIDStr`) is
decoded group by group; anything else yields `uuid.Nil`. -/
def FromStringOrNil (input : String) : UUID :=
  let t := input.data
  if t.length = 36 ∧ t.getD 8 ' ' = '-' ∧ t.getD 13 ' ' = '-' ∧ t.getD 18 ' ' = '-'
      ∧ t.getD 23 ' ' = '-' then
    match hexDecode (t.take 8 ++ (t.drop 9).take 4 ++ (t.drop 14).take 4 ++ (t.drop 19).take 4
        ++ (t.drop 24).take 12) with
    | some bs => fun i => bs.getD i.val 0
    | none => Nil
  else Nil

/-- The hash step shared by the name-based versions: the digest of the namespace bytes followed
by the name bytes, copied into the sixteen bytes of the identifier. -/
def newFromHash (ns : UUID) (name : GoString) : UUID :=
  let d := MD5.sum ((List.ofFn ns ++ name).map Fin.val)
  fun i => Fin.ofNat (d.getD i.val 0)

/-- Version stamp `u[6] = (u[6] & 0x0f) | (v << 4)`. -/
def SetVersion (u : UUID) (v : Nat) : UUID :=
  Function.update u 6 (Fin.ofNat (((u 6).val &&& 0x0f) ||| (v <<< 4)))

/-- Variant stamp of RFC 4122: top two bits of `u[8]` become `10`. -/
def SetVariant (u : UUID) : UUID :=
  Function.update u 8 (Fin.ofNat (((u 8).val &&& 0x3f) ||| 0x80))

/-- Modelled from the spec: `uuid.NewV3` of the identifier library is not under src/. It is the
version-3 (name-based, MD5) identifier of RFC 4122: hash namespace and name, then stamp version 3
and the RFC 4122 variant. -/
def NewV3 (ns : UUID) (name : GoString) : UUID :=
  SetVariant (SetVersion (newFromHash ns name) 3)

/-- Lower-case hexadecimal digit. -/
def hexDigit (n : Nat) : Char :=
  if n < 10 then Char.ofNat (48 + n) else Char.ofNat (87 + n)

/-- Go `hex.Encode`. -/
def hexEncode (bs : List (Fin 256)) : List Char :=
  bs.flatMap fun b => [hexDigit (b.val / 16), hexDigit (b.val % 16)]

end UUID

/-- Text form of an identifier, `func (u UUID) String() string`: five hexadecimal groups of
4, 2, 2, 2 and 6 bytes joined by dashes. -/
def UUID.String (u : UUID) : String :=
  let b := List.ofFn u
  ⟨hexEncode (b.take 4) ++ '-' :: hexEncode ((b.drop 4).take 2) ++ '-' ::
    hexEncode ((b.drop 6).take 2) ++ '-' :: hexEncode ((b.drop 8).take 2) ++ '-' ::
    hexEncode (b.drop 10)⟩

/-! ## Processes -/

/-- How a driver process stops. -/
inductive Halt where
  /-- The driver called `os.Exit(code)`. -/
  | exit (code : Int)
  /-- The driver raised `panic(err)` and nothing recovers it: the Go runtime reports the value
  on standard error and ends the process with status 2. -/
  | panic (err : GoError)
  /-- The library call named here ended the process itself. -/
  | libExit (call : String)
deriving DecidableEq, Repr

/-- Exit status of a stopped driver, where the driver's own code decides it. -/
def Halt.status : Halt → Option Int
  | .exit code => some code
  | .panic _ => some 2
  | .libExit _ => none

/-- Result of running a piece of driver code from a state: it returns a value, or the process
has stopped. The state reached is kept either way. -/
inductive Res (σ α : Type) where
  | ok (a : α) (s : σ)
  | halt (h : Halt) (s : σ)
deriving DecidableEq, Repr

/-- State reached. -/
def Res.world {σ α : Type} : Res σ α → σ
  | .ok _ s => s
  | .halt _ s => s

/-- The way the process stopped, if it did. -/
def Res.halted {σ α : Type} : Res σ α → Option Halt
  | .ok _ _ => none
  | .halt h _ => some h

/-- Driver code: a state transformer that may stop the process. -/
def Proc (σ α : Type) : Type := σ → Res σ α

/-- Sequencing: the rest does not run once the process has stopped. -/
def Proc.bind {σ α β : Type} (m : Proc σ α) (f : α → Proc σ β) : Proc σ β :=
  fun s => match m s with
    | .ok a s1 => f a s1
    | .halt h s1 => .halt h s1

instance {σ : Type} : Monad (Proc σ) where
  pure a := fun s => .ok a s
  bind := Proc.bind

/-- Stop the process. -/
def Proc.stop {σ α : Type} (h : Halt) : Proc σ α := fun s => .halt h s

/-- Observable state of a running driver: the calls made so far, oldest first, and how many
times the clock and the device have been read. -/
structure World (ε : Type) where
  trace : List ε
  ticks : Nat
  polls : Nat
deriving DecidableEq, Repr

/-- State of a driver that has not run yet. -/
def World.start {ε : Type} : World ε := ⟨[], 0, 0⟩

/-- Record one call. -/
def emit {ε : Type} (e : ε) : Proc (World ε) Unit :=
  fun w => .ok () { w with trace := w.trace ++ [e] }

/-- A value handed to `fmt.Println`. -/
inductive Val where
  | text (s : String)
  | duration (d : Int)
  | error (e : GoError)
deriving DecidableEq, Repr

namespace bw2

/-- A payload object of the bus library, seen through `GetPONum` and `GetContents`. -/
structure PayloadObject where
  GetPONum : Int
  GetContents : List (Fin 256)
deriving DecidableEq, Repr

/-- A message delivered by the bus, seen through the payload objects it carries. -/
structure SimpleMessage where
  POs : List PayloadObject
deriving DecidableEq, Repr

end bw2

/-- Parameters read from the deployment file; `MustString` ends the process when the key is
missing. -/
def MustString {ε : Type} (params : String → Option GoString) (key : String) :
    Proc (World ε) GoString :=
  match params key with
  | some v => pure v
  | none => Proc.stop (.libExit "MustString")

/-! ## The enphase driver (`driver/enphase/main.go`) -/

namespace Enphase

open bw2

def rootUUIDStr : String := "d8b61708-2797-11e6-836b-0cc47a0f7eea"

structure TimeseriesReading where
  UUID : String
  Time : Int
  Value : Nat
deriving DecidableEq, Repr

/-- One value received from the channel of `PollSummary`; the three fields the driver reads are
assigned to a `uint64` field without conversion. -/
structure Summary where
  CurrentPower : Nat
  EnergyLifetime : Nat
  EnergyToday : Nat
deriving DecidableEq, Repr

/-- Calls the driver makes, in the order it makes them. -/
inductive Event where
  | Println (args : List Val)
  | PrintfSummary (summary : Summary)
  | ConnectOrExit
  | OverrideAutoChainTo (v : Bool)
  | SetEntityFromEnvironOrExit
  | GetParamsOrExit
  | RegisterService (uri : GoString) (name : String)
  | RegisterInterface (name kind : String)
  | SetMetadata (signal key val : String)
  | NewEnphase (apiKey userID sysName : GoString)
  | PollSummary (interval : Int)
  | Now (unixNano : Int)
  | CreateMsgPackPayloadObject (ponum : Int) (tsr : TimeseriesReading)
  | PublishSignal (signal : String) (po : PayloadObject)
deriving DecidableEq, Repr

/-- What the driver's surroundings answer. -/
structure Env where
  /-- Whether `bw2.ConnectOrExit` returns a client. -/
  ConnectOrExit : Bool
  /-- Whether `SetEntityFromEnvironOrExit` returns. -/
  SetEntityFromEnvironOrExit : Bool
  /-- The parameters `spawnable.GetParamsOrExit` loads, if it returns. -/
  GetParamsOrExit : Option (String → Option GoString)
  /-- Go `time.ParseDuration`: a duration in nanoseconds and an error or nil. -/
  ParseDuration : GoString → Int × Option GoError
  /-- The error or nil of `NewEnphase(apiKey, userID, sysName)`. -/
  NewEnphase : GoString → GoString → GoString → Option GoError
  /-- The summaries the channel of `PollSummary(pollInterval)` delivers before it is closed. -/
  PollSummary : Int → List Summary
  /-- Result of the k-th `time.Now().UnixNano()` of the process. -/
  UnixNano : Nat → Int
  PONumTimeseriesReading : Int
  CreateMsgPackPayloadObject : Int → TimeseriesReading → Except GoError PayloadObject

/-- Read the clock: `time.Now().UnixNano()`. -/
def now (env : Env) : Proc (World Event) Int :=
  fun w => .ok (env.UnixNano w.ticks)
    { w with trace := w.trace ++ [.Now (env.UnixNano w.ticks)], ticks := w.ticks + 1 }

def TimeseriesReading.ToMsgPack (env : Env) (tsr : TimeseriesReading) :
    Proc (World Event) PayloadObject := do
  emit (.CreateMsgPackPayloadObject env.PONumTimeseriesReading tsr)
  match env.CreateMsgPackPayloadObject env.PONumTimeseriesReading tsr with
  | .error err => Proc.stop (.panic err)
  | .ok po => pure po

/-- Body of `for summary := range summCh`, lines 74 to 95. -/
def summaryBody (env : Env) (currentPowerUUID energyLifetimeUUID energyTodayUUID : UUID)
    (summary : Summary) : Proc (World Event) Unit := do
  emit (.PrintfSummary summary)
  let t1 ← now env
  let currentPowerReading : TimeseriesReading :=
    { UUID := UUID.String currentPowerUUID, Time := t1, Value := summary.CurrentPower }
  let po1 ← currentPowerReading.ToMsgPack env
  emit (.PublishSignal "CurrentPower" po1)
  let t2 ← now env
  let energyLifetimeReading : TimeseriesReading :=
    { UUID := UUID.String energyLifetimeUUID, Time := t2, Value := summary.EnergyLifetime }
  let po2 ← energyLifetimeReading.ToMsgPack env
  emit (.PublishSignal "EnergyLifetime" po2)
  let t3 ← now env
  let energyTodayReading : TimeseriesReading :=
    { UUID := UUID.String energyTodayUUID, Time := t3, Value := summary.EnergyToday }
  let po3 ← energyTodayReading.ToMsgPack env
  emit (.PublishSignal "EnergyToday" po3)

/-- The loop `for summary := range summCh` over the summaries the channel delivers. -/
def summaryLoop (env : Env) (currentPowerUUID energyLifetimeUUID energyTodayUUID : UUID) :
    List Summary → Proc (World Event) Unit
  | [] => pure ()
  | summary :: rest => do
    summaryBody env currentPowerUUID energyLifetimeUUID energyTodayUUID summary
    summaryLoop env currentPowerUUID energyLifetimeUUID energyTodayUUID rest

/-- Lines 42 to 44: drop one trailing slash of the base URI. -/
def stripSlash (baseURI : GoString) : GoString :=
  if HasSuffix baseURI (golit "/") then baseURI.take (baseURI.length - 1) else baseURI

/-- Line 60: `rootUUID := uuid.FromStringOrNil(rootUUIDStr)`. -/
def rootUUID : UUID := UUID.FromStringOrNil rootUUIDStr

/-- Line 61: `currentPowerUUID := uuid.NewV3(rootUUID, "CurrentPower")`. -/
def currentPowerUUID : UUID := UUID.NewV3 rootUUID (golit "CurrentPower")

/-- Line 63: `energyLifetimeUUID := uuid.NewV3(rootUUID, "EnergyLifetime")`. -/
def energyLifetimeUUID : UUID := UUID.NewV3 rootUUID (golit "EnergyLifetime")

/-- Line 65: `energyTodayUUID := uuid.NewV3(rootUUID, "EnergyToday")`. -/
def energyTodayUUID : UUID := UUID.NewV3 rootUUID (golit "EnergyToday")

/-- The driver. The four identifiers of lines 60 to 65 are pure values and are the constants
above. -/
def main (env : Env) : Proc (World Event) Unit := do
  emit (.Println [.text "Powered by Enphase Energy (http://enphase.com)"])
  emit .ConnectOrExit
  if !env.ConnectOrExit then Proc.stop (.libExit "ConnectOrExit")
  emit (.OverrideAutoChainTo true)
  emit .SetEntityFromEnvironOrExit
  if !env.SetEntityFromEnvironOrExit then Proc.stop (.libExit "SetEntityFromEnvironOrExit")
  emit .GetParamsOrExit
  let params ← match env.GetParamsOrExit with
    | some p => pure p
    | none => Proc.stop (.libExit "GetParamsOrExit")
  let name ← MustString params "name"
  let baseURI ← MustString params "svc_base_uri"
  let baseURI := stripSlash baseURI
  let userID ← MustString params "user_id"
  let apiKey ← MustString params "api_key"
  let sysName ← MustString params "system_name"
  let intervalStr ← MustString params "poll_interval"
  let (pollInterval, err) := env.ParseDuration intervalStr
  if err.isSome then
    emit (.Println [.text "Invalid Poll Interval Length:", .duration pollInterval])
    Proc.stop (.exit 1)
  emit (.RegisterService (baseURI ++ name) "s.Enphase")
  emit (.RegisterInterface "enphase1" "i.meter")
  emit (.SetMetadata "CurrentPower" "UnitofMeasure" "W")
  emit (.SetMetadata "EnergyLifetime" "UnitofMeasure" "Wh")
  emit (.SetMetadata "EnergyToday" "UnitofMeasure" "Wh")
  emit (.NewEnphase apiKey userID sysName)
  match env.NewEnphase apiKey userID sysName with
  | some err =>
    emit (.Println [.text "Failed to initialize Enphase instance:", .error err])
    Proc.stop (.exit 1)
  | none =>
    emit (.PollSummary pollInterval)
    summaryLoop env currentPowerUUID energyLifetimeUUID energyTodayUUID
      (env.PollSummary pollInterval)

/-- The readings handed to `CreateMsgPackPayloadObject`, oldest first. -/
def readings : List Event → List TimeseriesReading
  | [] => []
  | .CreateMsgPackPayloadObject _ tsr :: rest => tsr :: readings rest
  | _ :: rest => readings rest

/-- Every reading built so far took its `Time` from its own clock reading, in order. -/
def TimesFollowClock (env : Env) (w : World Event) : Prop :=
  (readings w.trace).map (·.Time) = (List.range w.ticks).map env.UnixNano

/-- The publications made, oldest first: signal and payload object. -/
def published : List Event → List (String × PayloadObject)
  | [] => []
  | .PublishSignal signal po :: rest => (signal, po) :: published rest
  | _ :: rest => published rest

/-- The three signal names the driver derives identifiers for. -/
def signalNames : List GoString :=
  [golit "CurrentPower", golit "EnergyLifetime", golit "EnergyToday"]

/-- The calls expected of the summary loop for the given summaries when the clock has been read
`k` times before and every payload object `pos r` is built without error: per summary the log
line, then for each of the three signals a clock reading, the payload construction and the
publication, in the order CurrentPower, EnergyLifetime, EnergyToday. -/
def summaryTrace (env : Env) (pos : TimeseriesReading → PayloadObject)
    (currentPowerUUID energyLifetimeUUID energyTodayUUID : UUID) (k : Nat) :
    List Summary → List Event
  | [] => []
  | summary :: rest =>
    [ .PrintfSummary summary,
      .Now (env.UnixNano k),
      .CreateMsgPackPayloadObject env.PONumTimeseriesReading
        ⟨UUID.String currentPowerUUID, env.UnixNano k, summary.CurrentPower⟩,
      .PublishSignal "CurrentPower"
        (pos ⟨UUID.String currentPowerUUID, env.UnixNano k, summary.CurrentPower⟩),
      .Now (env.UnixNano (k + 1)),
      .CreateMsgPackPayloadObject env.PONumTimeseriesReading
        ⟨UUID.String energyLifetimeUUID, env.UnixNano (k + 1), summary.EnergyLifetime⟩,
      .PublishSignal "EnergyLifetime"
        (pos ⟨UUID.String energyLifetimeUUID, env.UnixNano (k + 1), summary.EnergyLifetime⟩),
      .Now (env.UnixNano (k + 2)),
      .CreateMsgPackPayloadObject env.PONumTimeseriesReading
        ⟨UUID.String energyTodayUUID, env.UnixNano (k + 2), summary.EnergyToday⟩,
      .PublishSignal "EnergyToday"
        (pos ⟨UUID.String energyTodayUUID, env.UnixNano (k + 2), summary.EnergyToday⟩) ]
    ++ summaryTrace env pos currentPowerUUID energyLifetimeUUID energyTodayUUID (k + 3) rest

/-- The calls expected of a start-up that gets as far as constructing the adapter: the
attribution line, connection and parameters, registration of service and interface, the units of
the three signals, the adapter. -/
def startupTrace (uri apiKey userID sysName : GoString) : List Event :=
  [ .Println [.text "Powered by Enphase Energy (http://enphase.com)"],
    .ConnectOrExit,
    .OverrideAutoChainTo true,
    .SetEntityFromEnvironOrExit,
    .GetParamsOrExit,
    .RegisterService uri "s.Enphase",
    .RegisterInterface "enphase1" "i.meter",
    .SetMetadata "CurrentPower" "UnitofMeasure" "W",
    .SetMetadata "EnergyLifetime" "UnitofMeasure" "Wh",
    .SetMetadata "EnergyToday" "UnitofMeasure" "Wh",
    .NewEnphase apiKey userID sysName ]

/-! Sample surroundings, used to run the driver on concrete inputs. -/

def sampleParams (key : String) : Option GoString :=
  if key = "name" then some (golit "meter0")
  else if key = "svc_base_uri" then some (golit "scratch.ns/")
  else if key = "user_id" then some (golit "u1")
  else if key = "api_key" then some (golit "k1")
  else if key = "system_name" then some (golit "roof")
  else if key = "poll_interval" then some (golit "30s")
  else none

def samplePO (tsr : TimeseriesReading) : PayloadObject :=
  ⟨7, (MD5.leBytes 8 tsr.Value).map Fin.ofNat⟩

def sampleEnv : Env where
  ConnectOrExit := true
  SetEntityFromEnvironOrExit := true
  GetParamsOrExit := some sampleParams
  ParseDuration s :=
    if s = golit "30s" then (30000000000, none) else (0, some "time: invalid duration")
  NewEnphase _ _ _ := none
  PollSummary _ := [⟨250, 1000, 42⟩]
  UnixNano k := 1000 + k
  PONumTimeseriesReading := 7
  CreateMsgPackPayloadObject _ tsr := .ok (samplePO tsr)

/-- Sample surroundings in which no payload object can be built. -/
def failingEnv : Env :=
  { sampleEnv with CreateMsgPackPayloadObject := fun _ _ => .error "msgpack: encode failed" }

/-- Sample surroundings whose wall clock is set back between two readings. -/
def steppedClockEnv : Env :=
  { sampleEnv with UnixNano := fun k => 1000 - k }

/-- Sample surroundings whose configured poll interval is no duration. -/
def badIntervalEnv : Env :=
  { sampleEnv with GetParamsOrExit := some fun key =>
      if key = "poll_interval" then some (golit "soon") else sampleParams key }

end Enphase

/-! ## The vlight driver (`driver/vlight/main.go`) -/

namespace Vlight

open bw2

def PONUM : String := "2.1.1.1"

structure Reading where
  Time : Int
  State : Bool
  Brightness : Int
deriving DecidableEq, Repr

/-- The status and command value of the virtual light; its two fields are read into the `bool`
and `int` fields of `Reading` and passed to `ActuateLight` and `SetBrightness`. -/
structure Info where
  State : Bool
  Brightness : Int
deriving DecidableEq, Repr

/-- The decoded form `bw2.LoadMsgPackPayloadObject` returns. -/
structure MsgPackPayloadObject where
  ponum : Int
  contents : List (Fin 256)
deriving DecidableEq, Repr

/-- Calls the driver makes, in the order it makes them. -/
inductive Event where
  | Println (args : List Val)
  | ConnectOrExit
  | GetParamsOrExit
  | OverrideAutoChainTo (v : Bool)
  | SetEntityFromEnvironOrExit
  | RegisterService (uri : GoString) (name : String)
  | RegisterInterface (name kind : String)
  | MergeMetadata
  | NewVlight
  | SubscribeSlot (slot : String)
  | GetStatus (info : Info)
  | Now (unixNano : Int)
  | CreateMsgPackPayloadObject (ponum : Int) (r : Reading)
  | PublishSignal (signal : String) (po : PayloadObject)
  | Sleep (d : Int)
  | ActuateLight (state : Bool)
  | SetBrightness (brightness : Int)
deriving DecidableEq, Repr

/-- What the driver's surroundings answer. -/
structure Env where
  /-- Whether `bw2.ConnectOrExit` returns a client. -/
  ConnectOrExit : Bool
  /-- Whether `SetEntityFromEnvironOrExit` returns. -/
  SetEntityFromEnvironOrExit : Bool
  /-- The parameters `spawnable.GetParamsOrExit` loads, if it returns. -/
  GetParamsOrExit : Option (String → Option GoString)
  /-- Go `time.ParseDuration`: a duration in nanoseconds and an error or nil. -/
  ParseDuration : GoString → Int × Option GoError
  /-- Result of the k-th `v.GetStatus()` of the process. -/
  GetStatus : Nat → Info
  /-- Result of the k-th `time.Now().UnixNano()` of the process. -/
  UnixNano : Nat → Int
  FromDotForm : String → Int
  CreateMsgPackPayloadObject : Int → Reading → Except GoError PayloadObject
  /-- The payload object `msg.GetOnePODF(df)` returns, or nil. -/
  GetOnePODF : SimpleMessage → String → Option PayloadObject
  LoadMsgPackPayloadObject : Int → List (Fin 256) → Except GoError MsgPackPayloadObject
  /-- The value `msgpo.ValueInto(&data)` stores in `data`, or its error. -/
  ValueInto : MsgPackPayloadObject → Except GoError Info

/-- Read the clock: `time.Now().UnixNano()`. -/
def now (env : Env) : Proc (World Event) Int :=
  fun w => .ok (env.UnixNano w.ticks)
    { w with trace := w.trace ++ [.Now (env.UnixNano w.ticks)], ticks := w.ticks + 1 }

/-- Query the device: `v.GetStatus()`. -/
def getStatus (env : Env) : Proc (World Event) Info :=
  fun w => .ok (env.GetStatus w.polls)
    { w with trace := w.trace ++ [.GetStatus (env.GetStatus w.polls)], polls := w.polls + 1 }

def Reading.ToMsgPackPO (env : Env) (r : Reading) : Proc (World Event) PayloadObject := do
  emit (.CreateMsgPackPayloadObject (env.FromDotForm PONUM) r)
  match env.CreateMsgPackPayloadObject (env.FromDotForm PONUM) r with
  | .error err => Proc.stop (.panic err)
  | .ok po => pure po

/-- The function subscribed to slot "state", lines 49 to 74, run on one message. -/
def stateHandler (env : Env) (msg : SimpleMessage) : Proc (World Event) Unit :=
  match env.GetOnePODF msg PONUM with
  | none => emit (.Println [.text "Received actuation command without valid PO, dropping"])
  | some po =>
    if po.GetContents.length < 1 then
      emit (.Println [.text "Received actuation command with invalid PO, dropping"])
    else
      match env.LoadMsgPackPayloadObject po.GetPONum po.GetContents with
      | .error err => emit (.Println [.error err])
      | .ok msgpo =>
        match env.ValueInto msgpo with
        | .error err => emit (.Println [.error err])
        | .ok data => do
          emit (.ActuateLight data.State)
          emit (.SetBrightness data.Brightness)

/-- Body of the poll loop, lines 77 to 86. -/
def pollBody (env : Env) (pollInt : Int) : Proc (World Event) Unit := do
  let info ← getStatus env
  let timestamp ← now env
  let msg : Reading := { Time := timestamp, State := info.State, Brightness := info.Brightness }
  let po ← msg.ToMsgPackPO env
  emit (.PublishSignal "info" po)
  emit (.Sleep pollInt)

/-- The first `n` rounds of the endless loop `for { ... }`. -/
def pollLoop (env : Env) (pollInt : Int) : Nat → Proc (World Event) Unit
  | 0 => pure ()
  | n + 1 => do
    pollBody env pollInt
    pollLoop env pollInt n

/-- The driver, observed for the first `n` rounds of its poll loop. -/
def main (env : Env) (n : Nat) : Proc (World Event) Unit := do
  emit .ConnectOrExit
  if !env.ConnectOrExit then Proc.stop (.libExit "ConnectOrExit")
  emit .GetParamsOrExit
  let params ← match env.GetParamsOrExit with
    | some p => pure p
    | none => Proc.stop (.libExit "GetParamsOrExit")
  emit (.OverrideAutoChainTo true)
  emit .SetEntityFromEnvironOrExit
  if !env.SetEntityFromEnvironOrExit then Proc.stop (.libExit "SetEntityFromEnvironOrExit")
  let baseuri ← MustString params "svc_base_uri"
  let poll_interval ← MustString params "poll_interval"
  let (pollInt, err) := env.ParseDuration poll_interval
  match err with
  | some err => Proc.stop (.panic err)
  | none =>
    emit (.RegisterService baseuri "s.vlight")
    emit (.RegisterInterface "vlight" "i.xbos.light")
    emit .MergeMetadata
    emit .NewVlight
    emit (.SubscribeSlot "state")
    pollLoop env pollInt n

/-- The readings handed to `CreateMsgPackPayloadObject`, oldest first. -/
def readings : List Event → List Reading
  | [] => []
  | .CreateMsgPackPayloadObject _ r :: rest => r :: readings rest
  | _ :: rest => readings rest

/-- Every reading built so far took its `Time` from its own clock reading, in order. -/
def TimesFollowClock (env : Env) (w : World Event) : Prop :=
  (readings w.trace).map (·.Time) = (List.range w.ticks).map env.UnixNano

/-- The calls made on the device to change it, oldest first. -/
def actuations : List Event → List Event
  | [] => []
  | .ActuateLight s :: rest => .ActuateLight s :: actuations rest
  | .SetBrightness b :: rest => .SetBrightness b :: actuations rest
  | _ :: rest => actuations rest

/-- The calls expected of one round of the poll loop that is the `k`-th device query and the
`c`-th clock reading of the process, when the payload object `pos r` is built without error. -/
def roundTrace (env : Env) (pos : Reading → PayloadObject) (pollInt : Int) (k c : Nat) :
    List Event :=
  [ .GetStatus (env.GetStatus k),
    .Now (env.UnixNano c),
    .CreateMsgPackPayloadObject (env.FromDotForm PONUM)
      ⟨env.UnixNano c, (env.GetStatus k).State, (env.GetStatus k).Brightness⟩,
    .PublishSignal "info"
      (pos ⟨env.UnixNano c, (env.GetStatus k).State, (env.GetStatus k).Brightness⟩),
    .Sleep pollInt ]

/-- The calls expected of a start-up that gets as far as the poll loop. -/
def startupTrace (baseuri : GoString) : List Event :=
  [ .ConnectOrExit,
    .GetParamsOrExit,
    .OverrideAutoChainTo true,
    .SetEntityFromEnvironOrExit,
    .RegisterService baseuri "s.vlight",
    .RegisterInterface "vlight" "i.xbos.light",
    .MergeMetadata,
    .NewVlight,
    .SubscribeSlot "state" ]

/-- The publications made, oldest first: signal and payload object. -/
def published : List Event → List (String × PayloadObject)
  | [] => []
  | .PublishSignal signal po :: rest => (signal, po) :: published rest
  | _ :: rest => published rest

/-- The lines written with `fmt.Println`, oldest first. -/
def printed : List Event → List (List Val)
  | [] => []
  | .Println args :: rest => args :: printed rest
  | _ :: rest => printed rest

/-! Sample surroundings, used to run the driver on concrete inputs. -/

def sampleParams (key : String) : Option GoString :=
  if key = "svc_base_uri" then some (golit "scratch.ns/vlight")
  else if key = "poll_interval" then some (golit "1s")
  else none

def samplePO (r : Reading) : PayloadObject :=
  ⟨33620225, [if r.State then 1 else 0, Fin.ofNat (r.Brightness % 256).toNat]⟩

def sampleEnv : Env where
  ConnectOrExit := true
  SetEntityFromEnvironOrExit := true
  GetParamsOrExit := some sampleParams
  ParseDuration s :=
    if s = golit "1s" then (1000000000, none) else (0, some "time: invalid duration")
  GetStatus k := ⟨k % 2 = 0, -5 + k⟩
  UnixNano k := 1000 + k
  FromDotForm _ := 33620225
  CreateMsgPackPayloadObject _ r := .ok (samplePO r)
  GetOnePODF msg _ := msg.POs.find? fun po => po.GetPONum = 33620225
  LoadMsgPackPayloadObject ponum contents := .ok ⟨ponum, contents⟩
  ValueInto msgpo :=
    match msgpo.contents with
    | [s, b] => .ok ⟨s ≠ 0, b.val⟩
    | _ => .error "msgpack: invalid code"

/-- Sample surroundings in which no payload object can be built. -/
def failingEnv : Env :=
  { sampleEnv with CreateMsgPackPayloadObject := fun _ _ => .error "msgpack: encode failed" }

/-- Sample surroundings whose wall clock is set back between two readings. -/
def steppedClockEnv : Env :=
  { sampleEnv with UnixNano := fun k => 1000 - k }

/-- Sample surroundings whose configured poll interval is no duration. -/
def badIntervalEnv : Env :=
  { sampleEnv with GetParamsOrExit := some fun key =>
      if key = "poll_interval" then some (golit "soon") else sampleParams key }

end Vlight

/-! ## Properties -/

section ProcLemmas

variable {σ α β : Type}

@[simp] theorem Proc.pure_run (a : α) (s : σ) : (pure a : Proc σ α) s = .ok a s := rfl

@[simp] theorem Proc.bind_run (m : Proc σ α) (f : α → Proc σ β) (s : σ) :
    (m >>= f) s = match m s with
      | .ok a s1 => f a s1
      | .halt h s1 => .halt h s1 := rfl

@[simp] theorem Proc.stop_run (h : Halt) (s : σ) : (Proc.stop h : Proc σ α) s = .halt h s := rfl

@[simp] theorem emit_run {ε : Type} (e : ε) (w : World ε) :
    emit e w = .ok () { w with trace := w.trace ++ [e] } := rfl

end ProcLemmas

/-! ### Command intake of the vlight driver -/

namespace Vlight

open bw2

theorem actuations_append (xs ys : List Event) :
    actuations (xs ++ ys) = actuations xs ++ actuations ys := by
  induction xs with
  | nil => rfl
  | cons x xs ih => cases x <;> simp [actuations, ih]

theorem stateHandler_halted (env : Env) (msg : SimpleMessage) (w : World Event) :
    (stateHandler env msg w).halted = none := by
  unfold stateHandler
  cases env.GetOnePODF msg PONUM with
  | none => rfl
  | some po =>
    by_cases hlen : po.GetContents.length < 1
    · simp [hlen, Res.halted]
    · cases hload : env.LoadMsgPackPayloadObject po.GetPONum po.GetContents with
      | error err => simp [hlen, hload, Res.halted]
      | ok msgpo =>
        cases hval : env.ValueInto msgpo <;> simp [hlen, hload, hval, Res.halted]

/-- C1. When the message carries a payload object of type PONUM with non-empty contents that
loads and decodes to a command with state `s` and brightness `b`, the handler returns normally
having made exactly two calls, `ActuateLight(s)` and then `SetBrightness(b)`, and nothing else. -/
theorem stateHandler_applies_command (env : Env) (msg : SimpleMessage) (w : World Event)
    (po : PayloadObject) (msgpo : MsgPackPayloadObject) (s : Bool) (b : Int)
    (hpo : env.GetOnePODF msg PONUM = some po)
    (hlen : 1 ≤ po.GetContents.length)
    (hload : env.LoadMsgPackPayloadObject po.GetPONum po.GetContents = .ok msgpo)
    (hval : env.ValueInto msgpo = .ok ⟨s, b⟩) :
    stateHandler env msg w
      = .ok () { w with trace := w.trace ++ [.ActuateLight s, .SetBrightness b] } := by
  have hlen1 : ¬ po.GetContents.length < 1 := by omega
  simp [stateHandler, hpo, hlen1, hload, hval]

/-- Witness for C1: the command with state true and brightness 80 yields `ActuateLight(true)`
followed by `SetBrightness(80)`. -/
theorem stateHandler_applies_command_witness :
    stateHandler sampleEnv ⟨[⟨33620225, [1, 80]⟩]⟩ World.start
      = .ok () ⟨[.ActuateLight true, .SetBrightness 80], 0, 0⟩ :=
  stateHandler_applies_command sampleEnv ⟨[⟨33620225, [1, 80]⟩]⟩ World.start
    ⟨33620225, [1, 80]⟩ ⟨33620225, [1, 80]⟩ true 80 rfl (by decide) rfl rfl

/-- C2. The handler never stops the process. When the payload object of type PONUM is absent,
or its contents are empty, or loading it fails, or extracting the command from it fails, the
handler returns normally having only printed one line: neither `ActuateLight` nor
`SetBrightness` is called. Conversely the device is actuated only if a payload object is
present, non-empty, loads and decodes. -/
theorem stateHandler_drops_malformed (env : Env) (msg : SimpleMessage) (w : World Event) :
    (stateHandler env msg w).halted = none
    ∧ ((env.GetOnePODF msg PONUM = none
        ∨ (∃ po, env.GetOnePODF msg PONUM = some po ∧ po.GetContents.length < 1)
        ∨ (∃ po err, env.GetOnePODF msg PONUM = some po
            ∧ env.LoadMsgPackPayloadObject po.GetPONum po.GetContents = .error err)
        ∨ (∃ po msgpo err, env.GetOnePODF msg PONUM = some po
            ∧ env.LoadMsgPackPayloadObject po.GetPONum po.GetContents = .ok msgpo
            ∧ env.ValueInto msgpo = .error err))
      → ∃ line, stateHandler env msg w
          = .ok () { w with trace := w.trace ++ [.Println line] })
    ∧ (actuations (stateHandler env msg w).world.trace ≠ actuations w.trace
      → ∃ po msgpo data, env.GetOnePODF msg PONUM = some po ∧ 1 ≤ po.GetContents.length
          ∧ env.LoadMsgPackPayloadObject po.GetPONum po.GetContents = .ok msgpo
          ∧ env.ValueInto msgpo = .ok data) := by
  unfold stateHandler
  cases hpo : env.GetOnePODF msg PONUM with
  | none => simp [Res.halted, Res.world, actuations_append, actuations]
  | some po =>
    by_cases hlen : po.GetContents.length < 1
    · simp [hlen, Res.halted, Res.world, actuations_append, actuations]
    · cases hload : env.LoadMsgPackPayloadObject po.GetPONum po.GetContents with
      | error err => simp [hlen, hload, Res.halted, Res.world, actuations_append, actuations]
      | ok msgpo =>
        cases hval : env.ValueInto msgpo with
        | error err =>
          simp [hlen, hload, hval, Res.halted, Res.world, actuations_append, actuations]
        | ok data =>
          simp [hlen, hload, hval, Res.halted, Res.world, actuations_append, actuations]
          exact ⟨fun h => hlen (by simp [h]), by omega⟩

/-- Witness for C2: a message without a payload object of type PONUM, one whose payload object
is empty, and one whose payload object does not decode are each dropped with one printed line. -/
theorem stateHandler_drops_malformed_witness :
    (∃ line, stateHandler sampleEnv ⟨[⟨5, [1, 80]⟩]⟩ World.start
        = .ok () ⟨[.Println line], 0, 0⟩)
    ∧ (∃ line, stateHandler sampleEnv ⟨[⟨33620225, []⟩]⟩ World.start
        = .ok () ⟨[.Println line], 0, 0⟩)
    ∧ (∃ line, stateHandler sampleEnv ⟨[⟨33620225, [1, 80, 3]⟩]⟩ World.start
        = .ok () ⟨[.Println line], 0, 0⟩) :=
  ⟨(stateHandler_drops_malformed sampleEnv ⟨[⟨5, [1, 80]⟩]⟩ World.start).2.1
      (Or.inl rfl),
    (stateHandler_drops_malformed sampleEnv ⟨[⟨33620225, []⟩]⟩ World.start).2.1
      (Or.inr (Or.inl ⟨⟨33620225, []⟩, rfl, by decide⟩)),
    (stateHandler_drops_malformed sampleEnv ⟨[⟨33620225, [1, 80, 3]⟩]⟩ World.start).2.1
      (Or.inr (Or.inr (Or.inr ⟨⟨33620225, [1, 80, 3]⟩, ⟨33620225, [1, 80, 3]⟩,
        "msgpack: invalid code", rfl, rfl, rfl⟩)))⟩

end Vlight

/-! ### The summary loop of the enphase driver -/

namespace Enphase

open bw2

@[simp] theorem now_run_enphase (env : Env) (w : World Event) :
    now env w = .ok (env.UnixNano w.ticks)
      ⟨w.trace ++ [.Now (env.UnixNano w.ticks)], w.ticks + 1, w.polls⟩ := rfl

theorem ToMsgPack_run (env : Env) (tsr : TimeseriesReading) (w : World Event) :
    tsr.ToMsgPack env w =
      match env.CreateMsgPackPayloadObject env.PONumTimeseriesReading tsr with
      | .error err => .halt (.panic err)
          ⟨w.trace ++ [.CreateMsgPackPayloadObject env.PONumTimeseriesReading tsr],
            w.ticks, w.polls⟩
      | .ok po => .ok po
          ⟨w.trace ++ [.CreateMsgPackPayloadObject env.PONumTimeseriesReading tsr],
            w.ticks, w.polls⟩ := by
  simp only [TimeseriesReading.ToMsgPack, Proc.bind_run, emit_run]
  cases env.CreateMsgPackPayloadObject env.PONumTimeseriesReading tsr <;> rfl

theorem summaryBody_run (env : Env) (pos : TimeseriesReading → PayloadObject) (c e t : UUID)
    (summary : Summary) (w : World Event)
    (henc : ∀ tsr, env.CreateMsgPackPayloadObject env.PONumTimeseriesReading tsr
      = .ok (pos tsr)) :
    summaryBody env c e t summary w
      = .ok ()
          ⟨w.trace ++ summaryTrace env pos c e t w.ticks [summary], w.ticks + 3, w.polls⟩ := by
  simp [summaryBody, ToMsgPack_run, henc, summaryTrace]

theorem summaryLoop_run (env : Env) (pos : TimeseriesReading → PayloadObject) (c e t : UUID)
    (henc : ∀ tsr, env.CreateMsgPackPayloadObject env.PONumTimeseriesReading tsr = .ok (pos tsr))
    (summaries : List Summary) (w : World Event) :
    summaryLoop env c e t summaries w
      = .ok () ⟨w.trace ++ summaryTrace env pos c e t w.ticks summaries,
          w.ticks + 3 * summaries.length, w.polls⟩ := by
  induction summaries generalizing w with
  | nil => simp [summaryLoop, summaryTrace]
  | cons s rest ih =>
    simp only [summaryLoop, Proc.bind_run, summaryBody_run env pos c e t s w henc, ih]
    simp [summaryTrace]
    omega

end Enphase

/-! ### The poll loop of the vlight driver -/

namespace Vlight

open bw2

@[simp] theorem now_run_vlight (env : Env) (w : World Event) :
    now env w = .ok (env.UnixNano w.ticks)
      ⟨w.trace ++ [.Now (env.UnixNano w.ticks)], w.ticks + 1, w.polls⟩ := rfl

@[simp] theorem getStatus_run (env : Env) (w : World Event) :
    getStatus env w = .ok (env.GetStatus w.polls)
      ⟨w.trace ++ [.GetStatus (env.GetStatus w.polls)], w.ticks, w.polls + 1⟩ := rfl

theorem ToMsgPackPO_run (env : Env) (r : Reading) (w : World Event) :
    r.ToMsgPackPO env w =
      match env.CreateMsgPackPayloadObject (env.FromDotForm PONUM) r with
      | .error err => .halt (.panic err)
          ⟨w.trace ++ [.CreateMsgPackPayloadObject (env.FromDotForm PONUM) r], w.ticks, w.polls⟩
      | .ok po => .ok po
          ⟨w.trace ++ [.CreateMsgPackPayloadObject (env.FromDotForm PONUM) r], w.ticks,
            w.polls⟩ := by
  simp only [Reading.ToMsgPackPO, Proc.bind_run, emit_run]
  cases env.CreateMsgPackPayloadObject (env.FromDotForm PONUM) r <;> rfl

theorem pollBody_run (env : Env) (pos : Reading → PayloadObject) (pollInt : Int)
    (w : World Event)
    (henc : ∀ r, env.CreateMsgPackPayloadObject (env.FromDotForm PONUM) r = .ok (pos r)) :
    pollBody env pollInt w
      = .ok () ⟨w.trace ++ roundTrace env pos pollInt w.polls w.ticks,
          w.ticks + 1, w.polls + 1⟩ := by
  simp [pollBody, ToMsgPackPO_run, henc, roundTrace]

theorem pollLoop_rounds_aux (env : Env) (pos : Reading → PayloadObject) (pollInt : Int)
    (henc : ∀ r, env.CreateMsgPackPayloadObject (env.FromDotForm PONUM) r = .ok (pos r))
    (n : Nat) (w : World Event) :
    pollLoop env pollInt n w
      = .ok () ⟨w.trace ++ (List.range n).flatMap
            (fun i => roundTrace env pos pollInt (w.polls + i) (w.ticks + i)),
          w.ticks + n, w.polls + n⟩ := by
  induction n generalizing w with
  | zero => simp [pollLoop]
  | succ n ih =>
    simp only [pollLoop, Proc.bind_run, pollBody_run env pos pollInt w henc, ih]
    simp [List.range_succ_eq_map, List.flatMap_map, Function.comp_def, Nat.add_assoc,
      Nat.add_comm 1]

/-- C8. When every payload object is built without error, the first `n` rounds of the poll loop
return normally, for every `n`, and make exactly these calls: round `i` queries `GetStatus` once,
then reads the clock once, builds one `Reading` whose `State` and `Brightness` are those of the
status just returned, whatever they are, and whose `Time` is that clock reading, publishes it
once on signal "info", and sleeps for the configured interval. -/
theorem pollLoop_rounds (env : Env) (pos : Reading → PayloadObject) (pollInt : Int)
    (henc : ∀ r, env.CreateMsgPackPayloadObject (env.FromDotForm PONUM) r = .ok (pos r))
    (n : Nat) (w : World Event) :
    pollLoop env pollInt n w
      = .ok () ⟨w.trace ++ (List.range n).flatMap
            (fun i => roundTrace env pos pollInt (w.polls + i) (w.ticks + i)),
          w.ticks + n, w.polls + n⟩ := by
  exact pollLoop_rounds_aux env pos pollInt henc n w

/-- Witness for C8: two rounds against a device that reports brightness -5 and then -4. -/
theorem pollLoop_rounds_witness :
    pollLoop sampleEnv 1000000000 2 World.start
      = .ok () ⟨[ .GetStatus ⟨true, -5⟩, .Now 1000,
            .CreateMsgPackPayloadObject 33620225 ⟨1000, true, -5⟩,
            .PublishSignal "info" (samplePO ⟨1000, true, -5⟩), .Sleep 1000000000,
            .GetStatus ⟨false, -4⟩, .Now 1001,
            .CreateMsgPackPayloadObject 33620225 ⟨1001, false, -4⟩,
            .PublishSignal "info" (samplePO ⟨1001, false, -4⟩), .Sleep 1000000000 ], 2, 2⟩ :=
  pollLoop_rounds sampleEnv samplePO 1000000000 (fun _ => rfl) 2 World.start

end Vlight

/-! ### Capture times -/

namespace Enphase

theorem readings_append_enphase (xs ys : List Event) :
    readings (xs ++ ys) = readings xs ++ readings ys := by
  induction xs with
  | nil => rfl
  | cons x xs ih => cases x <;> simp [readings, ih]

theorem summaryBody_times (env : Env) (c e t : UUID) (summary : Summary) (w : World Event)
    (hw : TimesFollowClock env w) :
    TimesFollowClock env (summaryBody env c e t summary w).world := by
  unfold TimesFollowClock at *
  simp only [summaryBody, Proc.bind_run, emit_run, now_run_enphase, ToMsgPack_run]
  cases h1 : env.CreateMsgPackPayloadObject env.PONumTimeseriesReading
      ⟨UUID.String c, env.UnixNano w.ticks, summary.CurrentPower⟩ with
  | error err => simp [Res.world, readings_append_enphase, readings, List.range_succ, hw]
  | ok po1 =>
    dsimp only
    cases h2 : env.CreateMsgPackPayloadObject env.PONumTimeseriesReading
        ⟨UUID.String e, env.UnixNano (w.ticks + 1), summary.EnergyLifetime⟩ with
    | error err => simp [Res.world, readings_append_enphase, readings, List.range_succ, hw]
    | ok po2 =>
      dsimp only
      cases h3 : env.CreateMsgPackPayloadObject env.PONumTimeseriesReading
          ⟨UUID.String t, env.UnixNano (w.ticks + 1 + 1), summary.EnergyToday⟩ with
      | error err => simp [Res.world, readings_append_enphase, readings, List.range_succ, hw]
      | ok po3 => simp [Res.world, readings_append_enphase, readings, List.range_succ, hw]

theorem summaryLoop_times (env : Env) (c e t : UUID) (summaries : List Summary)
    (w : World Event) (hw : TimesFollowClock env w) :
    TimesFollowClock env (summaryLoop env c e t summaries w).world := by
  induction summaries generalizing w with
  | nil => simpa [summaryLoop, Res.world] using hw
  | cons s rest ih =>
    have hb := summaryBody_times env c e t s w hw
    simp only [summaryLoop, Proc.bind_run]
    cases hr : summaryBody env c e t s w with
    | ok a w1 =>
      rw [hr] at hb
      exact ih w1 hb
    | halt h w1 =>
      rw [hr] at hb
      exact hb

theorem started_enphase (env : Env) (p : String → Option GoString)
    (name baseURI userID apiKey sysName intervalStr : GoString) (d : Int)
    (hc : env.ConnectOrExit = true) (he : env.SetEntityFromEnvironOrExit = true)
    (hp : env.GetParamsOrExit = some p) (h1 : p "name" = some name)
    (h2 : p "svc_base_uri" = some baseURI) (h3 : p "user_id" = some userID)
    (h4 : p "api_key" = some apiKey) (h5 : p "system_name" = some sysName)
    (h6 : p "poll_interval" = some intervalStr) (hd : env.ParseDuration intervalStr = (d, none)) :
    main env World.start =
      match env.NewEnphase apiKey userID sysName with
      | some err => .halt (.exit 1)
          ⟨startupTrace (stripSlash baseURI ++ name) apiKey userID sysName
            ++ [.Println [.text "Failed to initialize Enphase instance:", .error err]], 0, 0⟩
      | none =>
        summaryLoop env currentPowerUUID energyLifetimeUUID energyTodayUUID (env.PollSummary d)
          ⟨startupTrace (stripSlash baseURI ++ name) apiKey userID sysName
            ++ [.PollSummary d], 0, 0⟩ := by
  cases hn : env.NewEnphase apiKey userID sysName <;>
    simp [main, MustString, hc, he, hp, h1, h2, h3, h4, h5, h6, hd, hn, World.start,
      startupTrace]

theorem main_times_enphase (env : Env) : TimesFollowClock env (main env World.start).world := by
  have h0 : ∀ tr : List Event, readings tr = [] → TimesFollowClock env ⟨tr, 0, 0⟩ := by
    intro tr h
    simp [TimesFollowClock, h]
  cases hc : env.ConnectOrExit
  · simpa [main, hc, Res.world, World.start] using h0 _ (by simp [readings])
  cases he : env.SetEntityFromEnvironOrExit
  · simpa [main, hc, he, Res.world, World.start] using h0 _ (by simp [readings])
  cases hp : env.GetParamsOrExit with
  | none => simpa [main, hc, he, hp, Res.world, World.start] using h0 _ (by simp [readings])
  | some p =>
  cases h1 : p "name" with
  | none =>
    simpa [main, MustString, hc, he, hp, h1, Res.world, World.start]
      using h0 _ (by simp [readings])
  | some name =>
  cases h2 : p "svc_base_uri" with
  | none =>
    simpa [main, MustString, hc, he, hp, h1, h2, Res.world, World.start]
      using h0 _ (by simp [readings])
  | some baseURI =>
  cases h3 : p "user_id" with
  | none =>
    simpa [main, MustString, hc, he, hp, h1, h2, h3, Res.world, World.start]
      using h0 _ (by simp [readings])
  | some userID =>
  cases h4 : p "api_key" with
  | none =>
    simpa [main, MustString, hc, he, hp, h1, h2, h3, h4, Res.world, World.start]
      using h0 _ (by simp [readings])
  | some apiKey =>
  cases h5 : p "system_name" with
  | none =>
    simpa [main, MustString, hc, he, hp, h1, h2, h3, h4, h5, Res.world, World.start]
      using h0 _ (by simp [readings])
  | some sysName =>
  cases h6 : p "poll_interval" with
  | none =>
    simpa [main, MustString, hc, he, hp, h1, h2, h3, h4, h5, h6, Res.world, World.start]
      using h0 _ (by simp [readings])
  | some intervalStr =>
  rcases hd : env.ParseDuration intervalStr with ⟨d, _ | err⟩
  · rw [started_enphase env p name baseURI userID apiKey sysName intervalStr d hc he hp h1 h2 h3
      h4 h5 h6 hd]
    cases hn : env.NewEnphase apiKey userID sysName with
    | some err =>
      exact h0 _ (by simp [readings_append_enphase, readings, startupTrace])
    | none =>
      exact summaryLoop_times env _ _ _ _ _
        (h0 _ (by simp [readings_append_enphase, readings, startupTrace]))
  · simpa [main, MustString, hc, he, hp, h1, h2, h3, h4, h5, h6, hd, Res.world, World.start]
      using h0 _ (by simp [readings])

end Enphase

namespace Vlight

theorem readings_append_vlight (xs ys : List Event) :
    readings (xs ++ ys) = readings xs ++ readings ys := by
  induction xs with
  | nil => rfl
  | cons x xs ih => cases x <;> simp [readings, ih]

theorem pollBody_times (env : Env) (pollInt : Int) (w : World Event)
    (hw : TimesFollowClock env w) : TimesFollowClock env (pollBody env pollInt w).world := by
  unfold TimesFollowClock at *
  simp only [pollBody, Proc.bind_run, emit_run, now_run_vlight, getStatus_run, ToMsgPackPO_run]
  cases h1 : env.CreateMsgPackPayloadObject (env.FromDotForm PONUM)
      ⟨env.UnixNano w.ticks, (env.GetStatus w.polls).State, (env.GetStatus w.polls).Brightness⟩
    <;> simp [Res.world, readings_append_vlight, readings, List.range_succ, hw]

theorem pollLoop_times (env : Env) (pollInt : Int) (n : Nat) (w : World Event)
    (hw : TimesFollowClock env w) : TimesFollowClock env (pollLoop env pollInt n w).world := by
  induction n generalizing w with
  | zero => simpa [pollLoop, Res.world] using hw
  | succ n ih =>
    have hb := pollBody_times env pollInt w hw
    simp only [pollLoop, Proc.bind_run]
    cases hr : pollBody env pollInt w with
    | ok a w1 =>
      rw [hr] at hb
      exact ih w1 hb
    | halt h w1 =>
      rw [hr] at hb
      exact hb

theorem started_vlight (env : Env) (n : Nat) (p : String → Option GoString)
    (baseuri poll_interval : GoString) (pollInt : Int)
    (hc : env.ConnectOrExit = true) (hp : env.GetParamsOrExit = some p)
    (he : env.SetEntityFromEnvironOrExit = true)
    (h1 : p "svc_base_uri" = some baseuri) (h2 : p "poll_interval" = some poll_interval)
    (hd : env.ParseDuration poll_interval = (pollInt, none)) :
    main env n World.start = pollLoop env pollInt n ⟨startupTrace baseuri, 0, 0⟩ := by
  simp [main, MustString, hc, he, hp, h1, h2, hd, World.start, startupTrace]

theorem main_times_vlight (env : Env) (n : Nat) :
    TimesFollowClock env (main env n World.start).world := by
  have h0 : ∀ tr : List Event, readings tr = [] → TimesFollowClock env ⟨tr, 0, 0⟩ := by
    intro tr h
    simp [TimesFollowClock, h]
  cases hc : env.ConnectOrExit
  · simpa [main, hc, Res.world, World.start] using h0 _ (by simp [readings])
  cases hp : env.GetParamsOrExit with
  | none => simpa [main, hc, hp, Res.world, World.start] using h0 _ (by simp [readings])
  | some p =>
  cases he : env.SetEntityFromEnvironOrExit
  · simpa [main, hc, he, hp, Res.world, World.start] using h0 _ (by simp [readings])
  cases h1 : p "svc_base_uri" with
  | none =>
    simpa [main, MustString, hc, he, hp, h1, Res.world, World.start]
      using h0 _ (by simp [readings])
  | some baseuri =>
  cases h2 : p "poll_interval" with
  | none =>
    simpa [main, MustString, hc, he, hp, h1, h2, Res.world, World.start]
      using h0 _ (by simp [readings])
  | some poll_interval =>
  rcases hd : env.ParseDuration poll_interval with ⟨d, _ | err⟩
  · rw [started_vlight env n p baseuri poll_interval d hc hp he h1 h2 hd]
    exact pollLoop_times env _ _ _ (h0 _ (by simp [readings, startupTrace]))
  · simpa [main, MustString, hc, he, hp, h1, h2, hd, Res.world, World.start]
      using h0 _ (by simp [readings])

end Vlight


theorem pairwise_le_map_range (f : Nat → Int) (hf : ∀ i j, i ≤ j → f i ≤ f j) (n : Nat) :
    List.Pairwise (· ≤ ·) ((List.range n).map f) := by
  rw [List.pairwise_map]
  exact (List.pairwise_le_range n).imp (fun h => hf _ _ h)

/-- C9, as amended. Provided successive readings of the wall clock do not decrease, the `Time`
fields of the readings a driver builds during one run of the process do not decrease either, in
the order the readings are built: in the enphase driver across the three readings of a summary
and across summaries, in the vlight driver across poll rounds. -/
theorem capture_times_nondecreasing (e : Enphase.Env) (v : Vlight.Env) (n : Nat)
    (he : ∀ i j, i ≤ j → e.UnixNano i ≤ e.UnixNano j)
    (hv : ∀ i j, i ≤ j → v.UnixNano i ≤ v.UnixNano j) :
    List.Pairwise (· ≤ ·)
        ((Enphase.readings (Enphase.main e World.start).world.trace).map (·.Time))
    ∧ List.Pairwise (· ≤ ·)
        ((Vlight.readings (Vlight.main v n World.start).world.trace).map (·.Time)) := by
  constructor
  · rw [Enphase.main_times_enphase e]
    exact pairwise_le_map_range _ he _
  · rw [Vlight.main_times_vlight v n]
    exact pairwise_le_map_range _ hv _

/-- Witness for C9: the sample surroundings, whose clock advances by one at every reading. -/
theorem capture_times_nondecreasing_witness :
    List.Pairwise (· ≤ ·)
        ((Enphase.readings (Enphase.main Enphase.sampleEnv World.start).world.trace).map
          (·.Time))
    ∧ List.Pairwise (· ≤ ·)
        ((Vlight.readings (Vlight.main Vlight.sampleEnv 3 World.start).world.trace).map
          (·.Time)) :=
  capture_times_nondecreasing Enphase.sampleEnv Vlight.sampleEnv 3
    (fun i j h => by simp only [Enphase.sampleEnv]; omega)
    (fun i j h => by simp only [Vlight.sampleEnv]; omega)

theorem Enphase.sample_started_enphase (env : Enphase.Env)
    (hc : env.ConnectOrExit = true) (he : env.SetEntityFromEnvironOrExit = true)
    (hp : env.GetParamsOrExit = some Enphase.sampleParams)
    (hd : env.ParseDuration (golit "30s") = (30000000000, none))
    (hn : env.NewEnphase (golit "k1") (golit "u1") (golit "roof") = none) :
    Enphase.main env World.start =
      Enphase.summaryLoop env Enphase.currentPowerUUID Enphase.energyLifetimeUUID
        Enphase.energyTodayUUID (env.PollSummary 30000000000)
        ⟨Enphase.startupTrace (Enphase.stripSlash (golit "scratch.ns/") ++ golit "meter0")
            (golit "k1") (golit "u1") (golit "roof") ++ [.PollSummary 30000000000], 0, 0⟩ := by
  rw [Enphase.started_enphase env Enphase.sampleParams (golit "meter0") (golit "scratch.ns/")
    (golit "u1") (golit "k1") (golit "roof") (golit "30s") 30000000000 hc he hp rfl rfl rfl rfl
    rfl rfl hd, hn]

theorem Vlight.sample_started_vlight (env : Vlight.Env) (n : Nat)
    (hc : env.ConnectOrExit = true) (he : env.SetEntityFromEnvironOrExit = true)
    (hp : env.GetParamsOrExit = some Vlight.sampleParams)
    (hd : env.ParseDuration (golit "1s") = (1000000000, none)) :
    Vlight.main env n World.start =
      Vlight.pollLoop env 1000000000 n
        ⟨Vlight.startupTrace (golit "scratch.ns/vlight"), 0, 0⟩ :=
  Vlight.started_vlight env n Vlight.sampleParams (golit "scratch.ns/vlight") (golit "1s")
    1000000000 hc hp he rfl rfl hd

theorem Enphase.steppedClock_times_enphase :
    (Enphase.readings (Enphase.main Enphase.steppedClockEnv World.start).world.trace).map
        (·.Time) = [1000, 999, 998] := by
  rw [Enphase.sample_started_enphase Enphase.steppedClockEnv rfl rfl rfl rfl rfl,
    Enphase.summaryLoop_run Enphase.steppedClockEnv Enphase.samplePO _ _ _ (fun _ => rfl)]
  simp [Res.world, Enphase.readings_append_enphase, Enphase.readings, Enphase.startupTrace,
    Enphase.summaryTrace, Enphase.steppedClockEnv, Enphase.sampleEnv]

theorem Vlight.steppedClock_times_vlight :
    (Vlight.readings (Vlight.main Vlight.steppedClockEnv 2 World.start).world.trace).map
        (·.Time) = [1000, 999] := by
  rw [Vlight.sample_started_vlight Vlight.steppedClockEnv 2 rfl rfl rfl rfl,
    Vlight.pollLoop_rounds_aux Vlight.steppedClockEnv Vlight.samplePO _ (fun _ => rfl)]
  simp [Res.world, Vlight.readings_append_vlight, Vlight.readings, Vlight.startupTrace,
    Vlight.roundTrace, Vlight.steppedClockEnv, Vlight.sampleEnv, List.range_succ]

/-- Counterexample to C9 as stated: when the wall clock is set back between readings, the three
readings of one summary carry the decreasing times 1000, 999, 998, and the readings of two
successive polls the decreasing times 1000, 999. -/
theorem capture_times_can_decrease :
    (Enphase.readings (Enphase.main Enphase.steppedClockEnv World.start).world.trace).map
        (·.Time) = [1000, 999, 998]
    ∧ (Vlight.readings (Vlight.main Vlight.steppedClockEnv 2 World.start).world.trace).map
        (·.Time) = [1000, 999]
    ∧ ¬ List.Pairwise (· ≤ ·)
        ((Enphase.readings (Enphase.main Enphase.steppedClockEnv World.start).world.trace).map
          (·.Time))
    ∧ ¬ List.Pairwise (· ≤ ·)
        ((Vlight.readings (Vlight.main Vlight.steppedClockEnv 2 World.start).world.trace).map
          (·.Time)) := by
  refine ⟨Enphase.steppedClock_times_enphase, Vlight.steppedClock_times_vlight, ?_, ?_⟩
  · rw [Enphase.steppedClock_times_enphase]
    decide
  · rw [Vlight.steppedClock_times_vlight]
    decide

namespace Enphase

theorem published_append_enphase (xs ys : List Event) :
    published (xs ++ ys) = published xs ++ published ys := by
  induction xs with
  | nil => rfl
  | cons x xs ih => cases x <;> simp [published, ih]

theorem bad_interval_enphase (env : Env) (p : String → Option GoString)
    (name baseURI userID apiKey sysName intervalStr : GoString) (d : Int) (err : GoError)
    (hc : env.ConnectOrExit = true) (he : env.SetEntityFromEnvironOrExit = true)
    (hp : env.GetParamsOrExit = some p) (h1 : p "name" = some name)
    (h2 : p "svc_base_uri" = some baseURI) (h3 : p "user_id" = some userID)
    (h4 : p "api_key" = some apiKey) (h5 : p "system_name" = some sysName)
    (h6 : p "poll_interval" = some intervalStr)
    (hd : env.ParseDuration intervalStr = (d, some err)) :
    main env World.start
      = .halt (.exit 1)
          ⟨[ .Println [.text "Powered by Enphase Energy (http://enphase.com)"],
             .ConnectOrExit, .OverrideAutoChainTo true, .SetEntityFromEnvironOrExit,
             .GetParamsOrExit,
             .Println [.text "Invalid Poll Interval Length:", .duration d] ], 0, 0⟩ := by
  simp [main, MustString, hc, he, hp, h1, h2, h3, h4, h5, h6, hd, World.start]

theorem summaryBody_extends (env : Env) (c e t : UUID) (summary : Summary) (w : World Event) :
    ∃ more, (summaryBody env c e t summary w).world.trace = w.trace ++ more := by
  simp only [summaryBody, Proc.bind_run, emit_run, now_run_enphase, ToMsgPack_run]
  cases h1 : env.CreateMsgPackPayloadObject env.PONumTimeseriesReading
      ⟨UUID.String c, env.UnixNano w.ticks, summary.CurrentPower⟩ with
  | error err => exact ⟨_, by simp [Res.world]; rfl⟩
  | ok po1 =>
    dsimp only
    cases h2 : env.CreateMsgPackPayloadObject env.PONumTimeseriesReading
        ⟨UUID.String e, env.UnixNano (w.ticks + 1), summary.EnergyLifetime⟩ with
    | error err => exact ⟨_, by simp [Res.world]; rfl⟩
    | ok po2 =>
      dsimp only
      cases h3 : env.CreateMsgPackPayloadObject env.PONumTimeseriesReading
          ⟨UUID.String t, env.UnixNano (w.ticks + 1 + 1), summary.EnergyToday⟩ with
      | error err => exact ⟨_, by simp [Res.world]; rfl⟩
      | ok po3 => exact ⟨_, by simp [Res.world]; rfl⟩

theorem summaryLoop_extends (env : Env) (c e t : UUID) (summaries : List Summary)
    (w : World Event) :
    ∃ more, (summaryLoop env c e t summaries w).world.trace = w.trace ++ more := by
  induction summaries generalizing w with
  | nil => exact ⟨[], by simp [summaryLoop, Res.world]⟩
  | cons s rest ih =>
    obtain ⟨m1, hm1⟩ := summaryBody_extends env c e t s w
    simp only [summaryLoop, Proc.bind_run]
    cases hr : summaryBody env c e t s w with
    | ok a w1 =>
      rw [hr] at hm1
      obtain ⟨m2, hm2⟩ := ih w1
      refine ⟨m1 ++ m2, ?_⟩
      simp only [Res.world] at hm1
      rw [hm2, hm1, List.append_assoc]
    | halt h w1 =>
      rw [hr] at hm1
      exact ⟨m1, hm1⟩

end Enphase

namespace Vlight

theorem published_append_vlight (xs ys : List Event) :
    published (xs ++ ys) = published xs ++ published ys := by
  induction xs with
  | nil => rfl
  | cons x xs ih => cases x <;> simp [published, ih]

theorem bad_interval_vlight (env : Env) (n : Nat) (p : String → Option GoString)
    (baseuri poll_interval : GoString) (d : Int) (err : GoError)
    (hc : env.ConnectOrExit = true) (hp : env.GetParamsOrExit = some p)
    (he : env.SetEntityFromEnvironOrExit = true)
    (h1 : p "svc_base_uri" = some baseuri) (h2 : p "poll_interval" = some poll_interval)
    (hd : env.ParseDuration poll_interval = (d, some err)) :
    main env n World.start
      = .halt (.panic err)
          ⟨[ .ConnectOrExit, .GetParamsOrExit, .OverrideAutoChainTo true,
             .SetEntityFromEnvironOrExit ], 0, 0⟩ := by
  simp [main, MustString, hc, he, hp, h1, h2, hd, World.start]

end Vlight

/-! ### The base URI -/

theorem golit_slash : golit "/" = [47] := by decide

theorem golit_slash_slash : golit "//" = [47, 47] := by decide

theorem HasSuffix_concat_singleton (init : GoString) (a c : Fin 256) :
    HasSuffix (init ++ [a]) [c] = (a == c) := by
  simp [HasSuffix]

theorem HasSuffix_append_pair_singleton (init : GoString) (a b c : Fin 256) :
    HasSuffix (init ++ [a, b]) [c] = (b == c) := by
  have h : init ++ [a, b] = (init ++ [a]) ++ [b] := by simp
  rw [h, HasSuffix_concat_singleton]

theorem HasSuffix_append_pair_pair (init : GoString) (a b c d : Fin 256) :
    HasSuffix (init ++ [a, b]) [c, d] = (a == c && b == d) := by
  simp [HasSuffix]

theorem stripSlash_concat (init : GoString) (a : Fin 256) :
    Enphase.stripSlash (init ++ [a]) = if a = 47 then init else init ++ [a] := by
  simp [Enphase.stripSlash, golit_slash, HasSuffix_concat_singleton]

/-! ### Identifiers -/

namespace Enphase

theorem currentPowerUUID_String :
    UUID.String currentPowerUUID = "fb0e67f7-9eb9-3fa9-904e-28afca625564" := by decide

theorem energyLifetimeUUID_String :
    UUID.String energyLifetimeUUID = "b3838e2d-62d7-35f3-8641-9009003f6e33" := by decide

theorem energyTodayUUID_String :
    UUID.String energyTodayUUID = "7f59f2e8-9c47-3ab0-b4a4-cb7645b791d4" := by decide

theorem currentPower_ne_energyLifetime : currentPowerUUID ≠ energyLifetimeUUID := by
  intro h
  have hs := congrArg UUID.String h
  rw [currentPowerUUID_String, energyLifetimeUUID_String] at hs
  exact absurd hs (by decide)

theorem currentPower_ne_energyToday : currentPowerUUID ≠ energyTodayUUID := by
  intro h
  have hs := congrArg UUID.String h
  rw [currentPowerUUID_String, energyTodayUUID_String] at hs
  exact absurd hs (by decide)

theorem energyLifetime_ne_energyToday : energyLifetimeUUID ≠ energyTodayUUID := by
  intro h
  have hs := congrArg UUID.String h
  rw [energyLifetimeUUID_String, energyTodayUUID_String] at hs
  exact absurd hs (by decide)

end Enphase

/-- Counterexample to C4 as stated: derivation under the fixed root is not injective in the
name. Names are byte strings of any length and identifiers have sixteen bytes, so two different
names with the same identifier exist. -/
theorem NewV3_not_injective :
    ¬ ∀ n1 n2 : GoString, n1 ≠ n2 →
      UUID.NewV3 Enphase.rootUUID n1 ≠ UUID.NewV3 Enphase.rootUUID n2 := by
  intro h
  have hinj : Function.Injective (UUID.NewV3 Enphase.rootUUID) := by
    intro a b hab
    by_contra hne
    exact h a b hne hab
  exact not_injective_infinite_finite _ hinj

/-- C4, as amended. Under the fixed root, two different names among the three signal names the
driver tracks are given different identifiers. -/
theorem NewV3_injective_on_signalNames (n1 n2 : GoString)
    (h1 : n1 ∈ Enphase.signalNames) (h2 : n2 ∈ Enphase.signalNames) (hne : n1 ≠ n2) :
    UUID.NewV3 Enphase.rootUUID n1 ≠ UUID.NewV3 Enphase.rootUUID n2 := by
  simp only [Enphase.signalNames, List.mem_cons, List.mem_singleton, List.not_mem_nil,
    or_false] at h1 h2
  rcases h1 with rfl | rfl | rfl <;> rcases h2 with rfl | rfl | rfl
  · exact absurd rfl hne
  · exact Enphase.currentPower_ne_energyLifetime
  · exact Enphase.currentPower_ne_energyToday
  · exact Enphase.currentPower_ne_energyLifetime.symm
  · exact absurd rfl hne
  · exact Enphase.energyLifetime_ne_energyToday
  · exact Enphase.currentPower_ne_energyToday.symm
  · exact Enphase.energyLifetime_ne_energyToday.symm
  · exact absurd rfl hne

/-- Witness for C4 as amended: "CurrentPower" and "EnergyToday". -/
theorem NewV3_injective_on_signalNames_witness :
    UUID.NewV3 Enphase.rootUUID (golit "CurrentPower")
      ≠ UUID.NewV3 Enphase.rootUUID (golit "EnergyToday") :=
  NewV3_injective_on_signalNames (golit "CurrentPower") (golit "EnergyToday")
    (by simp [Enphase.signalNames]) (by simp [Enphase.signalNames]) (by decide)

/-- C5. The three identifiers the enphase driver publishes under are derived from the parsed
constant root and the signal name alone, they are pairwise different, and so are their text
forms, which are the three strings given here. -/
theorem enphase_identifiers_distinct :
    Enphase.rootUUID = UUID.FromStringOrNil "d8b61708-2797-11e6-836b-0cc47a0f7eea"
    ∧ Enphase.currentPowerUUID = UUID.NewV3 Enphase.rootUUID (golit "CurrentPower")
    ∧ Enphase.energyLifetimeUUID = UUID.NewV3 Enphase.rootUUID (golit "EnergyLifetime")
    ∧ Enphase.energyTodayUUID = UUID.NewV3 Enphase.rootUUID (golit "EnergyToday")
    ∧ Enphase.currentPowerUUID ≠ Enphase.energyLifetimeUUID
    ∧ Enphase.currentPowerUUID ≠ Enphase.energyTodayUUID
    ∧ Enphase.energyLifetimeUUID ≠ Enphase.energyTodayUUID
    ∧ UUID.String Enphase.currentPowerUUID = "fb0e67f7-9eb9-3fa9-904e-28afca625564"
    ∧ UUID.String Enphase.energyLifetimeUUID = "b3838e2d-62d7-35f3-8641-9009003f6e33"
    ∧ UUID.String Enphase.energyTodayUUID = "7f59f2e8-9c47-3ab0-b4a4-cb7645b791d4"
    ∧ UUID.String Enphase.currentPowerUUID ≠ UUID.String Enphase.energyLifetimeUUID
    ∧ UUID.String Enphase.currentPowerUUID ≠ UUID.String Enphase.energyTodayUUID
    ∧ UUID.String Enphase.energyLifetimeUUID ≠ UUID.String Enphase.energyTodayUUID := by
  refine ⟨rfl, rfl, rfl, rfl, Enphase.currentPower_ne_energyLifetime,
    Enphase.currentPower_ne_energyToday, Enphase.energyLifetime_ne_energyToday,
    Enphase.currentPowerUUID_String, Enphase.energyLifetimeUUID_String,
    Enphase.energyTodayUUID_String, ?_, ?_, ?_⟩
  · rw [Enphase.currentPowerUUID_String, Enphase.energyLifetimeUUID_String]
    decide
  · rw [Enphase.currentPowerUUID_String, Enphase.energyTodayUUID_String]
    decide
  · rw [Enphase.energyLifetimeUUID_String, Enphase.energyTodayUUID_String]
    decide

/-! ### Publication of summaries -/

/-- C3. When start-up succeeds and every payload object is built without error, the enphase
driver returns normally once the channel is closed, and after start-up it makes exactly these
calls: for each summary in arrival order, a reading with `Value = summary.CurrentPower` and the
identifier derived for "CurrentPower" is published on signal "CurrentPower", then one with
`summary.EnergyLifetime` on "EnergyLifetime", then one with `summary.EnergyToday` on
"EnergyToday", each with its own derived identifier and a fresh clock reading. -/
theorem main_publishes_summaries (env : Enphase.Env)
    (pos : Enphase.TimeseriesReading → bw2.PayloadObject) (p : String → Option GoString)
    (name baseURI userID apiKey sysName intervalStr : GoString) (d : Int)
    (hc : env.ConnectOrExit = true) (he : env.SetEntityFromEnvironOrExit = true)
    (hp : env.GetParamsOrExit = some p) (h1 : p "name" = some name)
    (h2 : p "svc_base_uri" = some baseURI) (h3 : p "user_id" = some userID)
    (h4 : p "api_key" = some apiKey) (h5 : p "system_name" = some sysName)
    (h6 : p "poll_interval" = some intervalStr) (hd : env.ParseDuration intervalStr = (d, none))
    (hn : env.NewEnphase apiKey userID sysName = none)
    (henc : ∀ tsr, env.CreateMsgPackPayloadObject env.PONumTimeseriesReading tsr
      = .ok (pos tsr)) :
    Enphase.main env World.start
      = .ok () ⟨Enphase.startupTrace (Enphase.stripSlash baseURI ++ name) apiKey userID sysName
          ++ [.PollSummary d]
          ++ Enphase.summaryTrace env pos Enphase.currentPowerUUID Enphase.energyLifetimeUUID
              Enphase.energyTodayUUID 0 (env.PollSummary d),
          3 * (env.PollSummary d).length, 0⟩ := by
  rw [Enphase.started_enphase env p name baseURI userID apiKey sysName intervalStr d hc he hp h1 h2
    h3 h4 h5 h6 hd, hn]
  simp [Enphase.summaryLoop_run env pos _ _ _ henc]

/-- Witness for C3: the summary with current power 250, lifetime energy 1000 and energy today 42
yields three publications with values 250, 1000, 42 under the three derived identifiers. -/
theorem main_publishes_summaries_witness :
    Enphase.published (Enphase.main Enphase.sampleEnv World.start).world.trace
      = [ ("CurrentPower",
            Enphase.samplePO ⟨"fb0e67f7-9eb9-3fa9-904e-28afca625564", 1000, 250⟩),
          ("EnergyLifetime",
            Enphase.samplePO ⟨"b3838e2d-62d7-35f3-8641-9009003f6e33", 1001, 1000⟩),
          ("EnergyToday",
            Enphase.samplePO ⟨"7f59f2e8-9c47-3ab0-b4a4-cb7645b791d4", 1002, 42⟩) ] := by
  rw [main_publishes_summaries Enphase.sampleEnv Enphase.samplePO Enphase.sampleParams
    (golit "meter0") (golit "scratch.ns/") (golit "u1") (golit "k1") (golit "roof") (golit "30s")
    30000000000 rfl rfl rfl rfl rfl rfl rfl rfl rfl rfl rfl (fun _ => rfl)]
  simp [Res.world, Enphase.published_append_enphase, Enphase.published, Enphase.startupTrace,
    Enphase.summaryTrace, Enphase.sampleEnv, Enphase.currentPowerUUID_String,
    Enphase.energyLifetimeUUID_String, Enphase.energyTodayUUID_String]

/-! ### Errors in steady state -/

/-- Counterexample to C6 as stated: when building the payload object of a reading returns an
error, either driver stops with a panic at the first reading and publishes nothing. -/
theorem serialization_error_stops_process :
    (Enphase.main Enphase.failingEnv World.start).halted
        = some (.panic "msgpack: encode failed")
    ∧ Enphase.published (Enphase.main Enphase.failingEnv World.start).world.trace = []
    ∧ (Vlight.main Vlight.failingEnv 5 World.start).halted
        = some (.panic "msgpack: encode failed")
    ∧ Vlight.published (Vlight.main Vlight.failingEnv 5 World.start).world.trace = [] := by
  rw [Enphase.sample_started_enphase Enphase.failingEnv rfl rfl rfl rfl rfl,
    Vlight.sample_started_vlight Vlight.failingEnv 5 rfl rfl rfl rfl]
  simp [Enphase.summaryLoop, Enphase.summaryBody, Enphase.ToMsgPack_run, Enphase.failingEnv,
    Enphase.sampleEnv, Enphase.published_append_enphase, Enphase.published, Enphase.startupTrace,
    Vlight.pollLoop, Vlight.pollBody, Vlight.ToMsgPackPO_run, Vlight.failingEnv,
    Vlight.sampleEnv, Vlight.published_append_vlight, Vlight.published, Vlight.startupTrace,
    Res.halted, Res.world]

/-- C6, as amended. Decoding an inbound command never stops the process: the command handler
returns normally on every message. Building the payload object of a reading is not contained:
if it returns an error for the first reading of a summary, or for the reading of a poll round,
the driver panics with that error and the loop makes no further call. If it never returns an
error, the summary loop runs to the end of its input and the poll loop runs any number of
rounds. -/
theorem steady_state_errors :
    (∀ (env : Vlight.Env) (msg : bw2.SimpleMessage) (w : World Vlight.Event),
      (Vlight.stateHandler env msg w).halted = none)
    ∧ (∀ (env : Enphase.Env) (c e t : UUID) (summary : Enphase.Summary)
        (rest : List Enphase.Summary) (w : World Enphase.Event) (err : GoError),
      env.CreateMsgPackPayloadObject env.PONumTimeseriesReading
          ⟨UUID.String c, env.UnixNano w.ticks, summary.CurrentPower⟩ = .error err →
      Enphase.summaryLoop env c e t (summary :: rest) w
        = .halt (.panic err)
            ⟨w.trace ++ [ .PrintfSummary summary, .Now (env.UnixNano w.ticks),
                .CreateMsgPackPayloadObject env.PONumTimeseriesReading
                  ⟨UUID.String c, env.UnixNano w.ticks, summary.CurrentPower⟩ ],
              w.ticks + 1, w.polls⟩)
    ∧ (∀ (env : Vlight.Env) (pollInt : Int) (n : Nat) (w : World Vlight.Event) (err : GoError),
      env.CreateMsgPackPayloadObject (env.FromDotForm Vlight.PONUM)
          ⟨env.UnixNano w.ticks, (env.GetStatus w.polls).State,
            (env.GetStatus w.polls).Brightness⟩ = .error err →
      Vlight.pollLoop env pollInt (n + 1) w
        = .halt (.panic err)
            ⟨w.trace ++ [ .GetStatus (env.GetStatus w.polls), .Now (env.UnixNano w.ticks),
                .CreateMsgPackPayloadObject (env.FromDotForm Vlight.PONUM)
                  ⟨env.UnixNano w.ticks, (env.GetStatus w.polls).State,
                    (env.GetStatus w.polls).Brightness⟩ ],
              w.ticks + 1, w.polls + 1⟩)
    ∧ (∀ (env : Enphase.Env) (c e t : UUID) (summaries : List Enphase.Summary)
        (w : World Enphase.Event),
      (∀ tsr, ∃ po, env.CreateMsgPackPayloadObject env.PONumTimeseriesReading tsr = .ok po) →
      (Enphase.summaryLoop env c e t summaries w).halted = none)
    ∧ (∀ (env : Vlight.Env) (pollInt : Int) (n : Nat) (w : World Vlight.Event),
      (∀ r, ∃ po, env.CreateMsgPackPayloadObject (env.FromDotForm Vlight.PONUM) r = .ok po) →
      (Vlight.pollLoop env pollInt n w).halted = none) := by
  refine ⟨fun env msg w => (Vlight.stateHandler_halted env msg w), ?_, ?_, ?_, ?_⟩
  · intro env c e t summary rest w err h
    simp [Enphase.summaryLoop, Enphase.summaryBody, Enphase.ToMsgPack_run, h]
  · intro env pollInt n w err h
    simp [Vlight.pollLoop, Vlight.pollBody, Vlight.ToMsgPackPO_run, h]
  · intro env c e t summaries w h
    choose pos hpos using h
    rw [Enphase.summaryLoop_run env pos c e t hpos]
    rfl
  · intro env pollInt n w h
    choose pos hpos using h
    rw [Vlight.pollLoop_rounds_aux env pos pollInt hpos]
    rfl

/-- Witness for C6 as amended, in the sample surroundings: a command without payload is
survived, a failing payload construction stops the summary loop at its first reading, and with
working payload construction the loops run on. -/
theorem steady_state_errors_witness :
    (Vlight.stateHandler Vlight.sampleEnv ⟨[]⟩ World.start).halted = none
    ∧ Enphase.summaryLoop Enphase.failingEnv UUID.Nil UUID.Nil UUID.Nil
        [⟨250, 1000, 42⟩, ⟨251, 1001, 43⟩] World.start
      = .halt (.panic "msgpack: encode failed")
          ⟨[ .PrintfSummary ⟨250, 1000, 42⟩, .Now 1000,
             .CreateMsgPackPayloadObject 7 ⟨UUID.String UUID.Nil, 1000, 250⟩ ], 1, 0⟩
    ∧ (Vlight.pollLoop Vlight.sampleEnv 1000000000 4 World.start).halted = none :=
  ⟨steady_state_errors.1 Vlight.sampleEnv ⟨[]⟩ World.start,
    steady_state_errors.2.1 Enphase.failingEnv UUID.Nil UUID.Nil UUID.Nil ⟨250, 1000, 42⟩
      [⟨251, 1001, 43⟩] World.start "msgpack: encode failed" rfl,
    steady_state_errors.2.2.2.2 Vlight.sampleEnv 1000000000 4 World.start
      (fun r => ⟨Vlight.samplePO r, rfl⟩)⟩

/-- C10. The enphase driver removes exactly one trailing slash from `svc_base_uri`: a value
whose last byte is `/` loses that byte, any other value is unchanged. The result still ends with
`/` exactly when the value ended with `//`, so the step is not idempotent (`a//` gives `a/`,
which gives `a`). When start-up gets as far as registration, the service is registered under the
result followed directly by `name`. -/
theorem stripSlash_removes_one_slash (b : GoString) :
    Enphase.stripSlash b = (if b.getLast? = some 47 then b.dropLast else b)
    ∧ HasSuffix (Enphase.stripSlash b) (golit "/") = HasSuffix b (golit "//")
    ∧ Enphase.stripSlash (golit "a//") = golit "a/"
    ∧ Enphase.stripSlash (Enphase.stripSlash (golit "a//")) = golit "a"
    ∧ (∀ (env : Enphase.Env) (p : String → Option GoString)
        (name userID apiKey sysName intervalStr : GoString) (d : Int),
      env.ConnectOrExit = true → env.SetEntityFromEnvironOrExit = true →
      env.GetParamsOrExit = some p → p "name" = some name → p "svc_base_uri" = some b →
      p "user_id" = some userID → p "api_key" = some apiKey → p "system_name" = some sysName →
      p "poll_interval" = some intervalStr → env.ParseDuration intervalStr = (d, none) →
      ∃ more, (Enphase.main env World.start).world.trace
        = [ .Println [.text "Powered by Enphase Energy (http://enphase.com)"],
            .ConnectOrExit, .OverrideAutoChainTo true, .SetEntityFromEnvironOrExit,
            .GetParamsOrExit,
            .RegisterService (Enphase.stripSlash b ++ name) "s.Enphase" ] ++ more) := by
  refine ⟨?_, ?_, by decide, by decide, ?_⟩
  · rcases List.eq_nil_or_concat b with rfl | ⟨init, a, rfl⟩
    · simp [Enphase.stripSlash, HasSuffix, golit_slash]
    · rw [List.concat_eq_append, stripSlash_concat]
      by_cases ha : a = 47 <;> simp [ha]
  · rw [golit_slash, golit_slash_slash]
    rcases List.eq_nil_or_concat b with rfl | ⟨init, a, rfl⟩
    · simp [Enphase.stripSlash, HasSuffix, golit_slash]
    · rw [List.concat_eq_append, stripSlash_concat]
      rcases List.eq_nil_or_concat init with rfl | ⟨init2, c, rfl⟩
      · by_cases ha : a = 47
        · simp [ha, HasSuffix]
        · simp [ha, HasSuffix]
      · rw [List.concat_eq_append]
        by_cases ha : a = 47
        · simp [ha, HasSuffix_concat_singleton, HasSuffix_append_pair_pair]
        · simp [ha, HasSuffix_append_pair_singleton, HasSuffix_append_pair_pair]
  · intro env p name userID apiKey sysName intervalStr d hc he hp h1 h2 h3 h4 h5 h6 hd
    rw [Enphase.started_enphase env p name b userID apiKey sysName intervalStr d hc he hp h1 h2 h3
      h4 h5 h6 hd]
    cases hn : env.NewEnphase apiKey userID sysName with
    | some err => exact ⟨_, by simp [Res.world, Enphase.startupTrace]; rfl⟩
    | none =>
      obtain ⟨more, hmore⟩ := Enphase.summaryLoop_extends env Enphase.currentPowerUUID
        Enphase.energyLifetimeUUID Enphase.energyTodayUUID (env.PollSummary d)
        ⟨Enphase.startupTrace (Enphase.stripSlash b ++ name) apiKey userID sysName
          ++ [.PollSummary d], 0, 0⟩
      exact ⟨_, by simp only [hmore]; simp [Enphase.startupTrace]; rfl⟩

/-- Witness for C10: with base URI `scratch.ns/` and name `meter0` the service is registered
under `scratch.ns` followed directly by `meter0`. -/
theorem stripSlash_removes_one_slash_witness :
    ∃ more, (Enphase.main Enphase.sampleEnv World.start).world.trace
      = [ .Println [.text "Powered by Enphase Energy (http://enphase.com)"],
          .ConnectOrExit, .OverrideAutoChainTo true, .SetEntityFromEnvironOrExit,
          .GetParamsOrExit,
          .RegisterService (Enphase.stripSlash (golit "scratch.ns/") ++ golit "meter0")
            "s.Enphase" ] ++ more :=
  (stripSlash_removes_one_slash (golit "scratch.ns/")).2.2.2.2 Enphase.sampleEnv
    Enphase.sampleParams (golit "meter0") (golit "u1") (golit "k1") (golit "roof") (golit "30s")
    30000000000 rfl rfl rfl rfl rfl rfl rfl rfl rfl rfl

/-! ### An unparsable poll interval -/

/-- Counterexample to C7 as stated: with a poll interval that is no duration the vlight driver
stops by a panic, which the Go runtime reports on standard error, and has written nothing to
standard output. -/
theorem vlight_bad_interval_prints_nothing :
    Vlight.main Vlight.badIntervalEnv 1 World.start
      = .halt (.panic "time: invalid duration")
          ⟨[ .ConnectOrExit, .GetParamsOrExit, .OverrideAutoChainTo true,
             .SetEntityFromEnvironOrExit ], 0, 0⟩
    ∧ Vlight.printed (Vlight.main Vlight.badIntervalEnv 1 World.start).world.trace = [] := by
  have h := Vlight.bad_interval_vlight Vlight.badIntervalEnv 1 _ (golit "scratch.ns/vlight")
    (golit "soon") 0 "time: invalid duration" rfl rfl rfl rfl rfl rfl
  rw [h]
  exact ⟨rfl, rfl⟩

/-- C7, as amended. When start-up reaches the poll interval and the configured string does not
parse as a duration, both drivers stop before any service or interface is registered and before
any reading is published, with a non-zero status: the enphase driver prints a diagnostic line on
standard output and exits with status 1; the vlight driver panics with the parse error, which
ends the process with status 2 and prints nothing on standard output. -/
theorem bad_poll_interval_aborts (e : Enphase.Env) (v : Vlight.Env) (n : Nat)
    (pe pv : String → Option GoString)
    (name baseURI userID apiKey sysName intervalStr baseuri poll_interval : GoString)
    (de dv : Int) (erre errv : GoError)
    (hec : e.ConnectOrExit = true) (hee : e.SetEntityFromEnvironOrExit = true)
    (hep : e.GetParamsOrExit = some pe) (he1 : pe "name" = some name)
    (he2 : pe "svc_base_uri" = some baseURI) (he3 : pe "user_id" = some userID)
    (he4 : pe "api_key" = some apiKey) (he5 : pe "system_name" = some sysName)
    (he6 : pe "poll_interval" = some intervalStr)
    (hed : e.ParseDuration intervalStr = (de, some erre))
    (hvc : v.ConnectOrExit = true) (hvp : v.GetParamsOrExit = some pv)
    (hve : v.SetEntityFromEnvironOrExit = true)
    (hv1 : pv "svc_base_uri" = some baseuri) (hv2 : pv "poll_interval" = some poll_interval)
    (hvd : v.ParseDuration poll_interval = (dv, some errv)) :
    Enphase.main e World.start
      = .halt (.exit 1)
          ⟨[ .Println [.text "Powered by Enphase Energy (http://enphase.com)"],
             .ConnectOrExit, .OverrideAutoChainTo true, .SetEntityFromEnvironOrExit,
             .GetParamsOrExit,
             .Println [.text "Invalid Poll Interval Length:", .duration de] ], 0, 0⟩
    ∧ Halt.status (.exit 1) = some 1
    ∧ Vlight.main v n World.start
      = .halt (.panic errv)
          ⟨[ .ConnectOrExit, .GetParamsOrExit, .OverrideAutoChainTo true,
             .SetEntityFromEnvironOrExit ], 0, 0⟩
    ∧ Halt.status (.panic errv) = some 2 :=
  ⟨Enphase.bad_interval_enphase e pe name baseURI userID apiKey sysName intervalStr de erre hec hee
      hep he1 he2 he3 he4 he5 he6 hed, rfl,
    Vlight.bad_interval_vlight v n pv baseuri poll_interval dv errv hvc hvp hve hv1 hv2 hvd, rfl⟩

/-- Witness for C7 as amended: both sample drivers configured with the interval `soon`. -/
theorem bad_poll_interval_aborts_witness :
    Enphase.main Enphase.badIntervalEnv World.start
      = .halt (.exit 1)
          ⟨[ .Println [.text "Powered by Enphase Energy (http://enphase.com)"],
             .ConnectOrExit, .OverrideAutoChainTo true, .SetEntityFromEnvironOrExit,
             .GetParamsOrExit,
             .Println [.text "Invalid Poll Interval Length:", .duration 0] ], 0, 0⟩
    ∧ Halt.status (.exit 1) = some 1
    ∧ Vlight.main Vlight.badIntervalEnv 7 World.start
      = .halt (.panic "time: invalid duration")
          ⟨[ .ConnectOrExit, .GetParamsOrExit, .OverrideAutoChainTo true,
             .SetEntityFromEnvironOrExit ], 0, 0⟩
    ∧ Halt.status (.panic "time: invalid duration") = some 2 :=
  bad_poll_interval_aborts Enphase.badIntervalEnv Vlight.badIntervalEnv 7 _ _
    (golit "meter0") (golit "scratch.ns/") (golit "u1") (golit "k1") (golit "roof") (golit "soon")
    (golit "scratch.ns/vlight") (golit "soon") 0 0 "time: invalid duration"
    "time: invalid duration" rfl rfl rfl rfl rfl rfl rfl rfl rfl rfl rfl rfl rfl rfl rfl rfl
